import Mathlib

/-
Verification of the AWS-Chatbot conversational service (app.py).

The development below is a shallow embedding of the message-routing and
conversation-context pipeline: the knowledge-base table, the conversation
manager (session store), the keyword detectors, the practice-question
generator fallback path, the response formatter, and the message-processing
state machine, together with the /api/chat and /api/config route behaviour.

The embedding models the generation-disabled configuration (no external
credential): gemini_available is False, the question generator holds no
model, and the screenshot analyser returns its fixed fallback text.  Python
None-able strings become Option String; Python truthiness on strings is
pyTruthy; Python exceptions (AttributeError on None, UnboundLocalError on a
local read before assignment) become an explicit Except layer.  Sources of
run-time nondeterminism (random.choice, datetime timestamps, the daily
session-id hash) are passed in as explicit parameters.
-/

/-- Python truthiness of an optional string: None and the empty string are
falsy, every other string is truthy. -/
def pyTruthy : Option String → Bool
  | none => false
  | some s => !(s == "")

/-- Python `a or b` on optional strings: the left operand if truthy,
otherwise the right operand. -/
def pyOr (a b : Option String) : Option String :=
  if pyTruthy a then a else b

/-- The string a Python value prints as / substitutes as: the payload for a
string, for None the name of the value (only used where the source
interpolates a value that is known to be a string). -/
def pyStr : Option String → String
  | some s => s
  | none => "None"

/-- Python str.lower, character by character (ASCII case folding; every
cased character handled by this program is ASCII). -/
def pyLower (s : String) : String :=
  ⟨s.data.map Char.toLower⟩

/-- Python str.upper, character by character (ASCII). -/
def pyUpperStr (s : String) : String :=
  ⟨s.data.map Char.toUpper⟩

/-- Helper for pyTitle: uppercase an alphabetic character that follows a
non-alphabetic one, lowercase the rest, as Python str.title does. -/
def pyTitleAux : Bool → List Char → List Char
  | _, [] => []
  | prevAlpha, c :: rest =>
    if c.isAlpha then
      (if prevAlpha then c.toLower else c.toUpper) :: pyTitleAux true rest
    else
      c :: pyTitleAux false rest

/-- Python str.title (ASCII). -/
def pyTitle (s : String) : String :=
  ⟨pyTitleAux false s.data⟩

/-- Substring occurrence over character lists: true iff pat occurs
contiguously in the second list. -/
def hasSubLC (pat : List Char) : List Char → Bool
  | [] => pat.isEmpty
  | c :: rest => pat.isPrefixOf (c :: rest) || hasSubLC pat rest

/-- The Python `pat in s` substring operator on strings. -/
def strContains (s pat : String) : Bool :=
  hasSubLC pat.data s.data

/-- Python exceptions that the modelled code can raise. -/
inductive PyErr where
  | attributeError (detail : String)
  | unboundLocal (name : String)
deriving DecidableEq

/-- One entry of the static AWS_SERVICES knowledge base. -/
structure ServiceEntry where
  name : String
  description : String
  console : String
  cli : String
  sdk : String
  troubleshoot : List String
  subtopics : List String
deriving DecidableEq

/-- The static AWS_SERVICES table of app.py, in its declaration order. -/
def AWS_SERVICES : List (String × ServiceEntry) := [
  ("ec2",
   { name := "Amazon EC2",
     description := "Virtual servers in the cloud",
     console := "EC2 Dashboard → Launch Instance → Select AMI → Choose Instance Type → Configure → Launch",
     cli := "aws ec2 run-instances --image-id ami-xxxxx --instance-type t2.micro",
     sdk := "boto3.client(\"ec2\").run_instances(ImageId=\"ami-xxx\", InstanceType=\"t2.micro\")",
     troubleshoot := ["Check IAM permissions", "Verify security groups", "Check instance state", "Review VPC settings"],
     subtopics := ["launch", "security groups", "key pairs", "AMI", "instance types", "pricing"] }),
  ("s3",
   { name := "Amazon S3",
     description := "Object storage service",
     console := "S3 Dashboard → Create Bucket → Enter name → Select region → Create",
     cli := "aws s3 mb s3://bucket-name && aws s3 cp file.txt s3://bucket-name/",
     sdk := "boto3.client(\"s3\").create_bucket(Bucket=\"bucket-name\")",
     troubleshoot := ["Check bucket policies", "Verify IAM permissions", "Check region settings", "Review CORS configuration"],
     subtopics := ["buckets", "storage classes", "lifecycle policies", "versioning", "encryption", "static hosting"] }),
  ("lambda",
   { name := "AWS Lambda",
     description := "Serverless compute service",
     console := "Lambda Dashboard → Create Function → Select runtime → Write code → Test",
     cli := "aws lambda create-function --function-name myFunc --runtime python3.9 --role arn:aws:iam::role",
     sdk := "boto3.client(\"lambda\").create_function(FunctionName=\"myFunc\", Runtime=\"python3.9\")",
     troubleshoot := ["Check CloudWatch logs", "Verify execution role", "Check timeout settings", "Review memory allocation"],
     subtopics := ["triggers", "layers", "environment variables", "cold starts", "pricing", "limits"] }),
  ("iam",
   { name := "AWS IAM",
     description := "Identity and Access Management",
     console := "IAM Dashboard → Users/Roles → Create → Attach policies → Review",
     cli := "aws iam create-user --user-name myuser && aws iam attach-user-policy",
     sdk := "boto3.client(\"iam\").create_user(UserName=\"myuser\")",
     troubleshoot := ["Check policy syntax", "Verify permissions", "Check trust relationships", "Review MFA settings"],
     subtopics := ["users", "roles", "policies", "groups", "MFA", "access keys", "federation"] }),
  ("vpc",
   { name := "Amazon VPC",
     description := "Virtual Private Cloud",
     console := "VPC Dashboard → Create VPC → Configure subnets → Set up routing",
     cli := "aws ec2 create-vpc --cidr-block 10.0.0.0/16",
     sdk := "boto3.client(\"ec2\").create_vpc(CidrBlock=\"10.0.0.0/16\")",
     troubleshoot := ["Check route tables", "Verify NACL rules", "Check internet gateway", "Review peering connections"],
     subtopics := ["subnets", "route tables", "internet gateway", "NAT gateway", "VPC peering", "endpoints"] }),
  ("rds",
   { name := "Amazon RDS",
     description := "Relational Database Service",
     console := "RDS Dashboard → Create Database → Choose engine → Configure → Launch",
     cli := "aws rds create-db-instance --db-instance-identifier mydb --db-instance-class db.t3.micro",
     sdk := "boto3.client(\"rds\").create_db_instance(DBInstanceIdentifier=\"mydb\")",
     troubleshoot := ["Check security groups", "Verify subnet groups", "Check parameter groups", "Review backup settings"],
     subtopics := ["engines", "multi-az", "read replicas", "backups", "encryption", "performance insights"] }),
  ("cloudwatch",
   { name := "Amazon CloudWatch",
     description := "Monitoring and observability service",
     console := "CloudWatch Dashboard → Create Dashboard → Add widgets → Configure metrics",
     cli := "aws cloudwatch put-metric-data --namespace \"MyApp\" --metric-data",
     sdk := "boto3.client(\"cloudwatch\").put_metric_data(Namespace=\"MyApp\")",
     troubleshoot := ["Check metric filters", "Verify alarm thresholds", "Review log groups", "Check retention policies"],
     subtopics := ["metrics", "alarms", "logs", "dashboards", "events", "insights"] })]

/-- Dictionary lookup AWS_SERVICES.get(service). -/
def awsGet (service : String) : Option ServiceEntry :=
  (AWS_SERVICES.find? (fun p => p.1 == service)).map Prod.snd

/-- One element of a session's conversation history, as appended by
ConversationManager.store_context. -/
structure HistoryEntry where
  user : String
  bot : String
  service : Option String
  topic : Option String
  timestamp : String
deriving DecidableEq

/-- The per-session record held in ConversationManager.conversations. -/
structure SessionData where
  history : List HistoryEntry
  current_service : Option String
  current_topic : Option String
  follow_up_count : Nat
deriving DecidableEq

/-- The session record a fresh (absent) session defaults to. -/
def freshSession : SessionData :=
  { history := [], current_service := none, current_topic := none, follow_up_count := 0 }

/-- The conversations mapping of ConversationManager (session id to
session record; absent keys map to none). -/
def ConvMap : Type := String → Option SessionData

/-- The empty conversations mapping (a freshly constructed manager). -/
def empty_conversations : ConvMap := fun _ => none

/-- ConversationManager.get_context: the stored record, or the fresh
default without inserting it. -/
def get_context (m : ConvMap) (session_id : String) : SessionData :=
  (m session_id).getD freshSession

/-- ConversationManager.store_context: lazily create the session record,
append one history entry, and overwrite current_service / current_topic
only when the supplied value is truthy. -/
def store_context (m : ConvMap) (session_id user_message bot_response : String)
    (service topic : Option String) (timestamp : String) : ConvMap :=
  let sess0 := (m session_id).getD freshSession
  let sess1 := { sess0 with
    history := sess0.history ++ [{ user := user_message, bot := bot_response,
                                   service := service, topic := topic, timestamp := timestamp }] }
  let sess2 := if pyTruthy service then { sess1 with current_service := service } else sess1
  let sess3 := if pyTruthy topic then { sess2 with current_topic := topic } else sess2
  fun k => if k = session_id then some sess3 else m k

/-- The fixed list of follow-up indicator phrases. -/
def follow_up_indicators : List String :=
  ["aur", "and", "also", "kya", "how about", "what about",
   "uske baad", "phir", "then", "next", "more", "detail",
   "explain", "batao", "samjhao", "iske alawa"]

/-- ConversationManager.is_follow_up: an indicator occurs in the lowered
text and the session history is non-empty. -/
def is_follow_up (message : String) (context : SessionData) : Bool :=
  (follow_up_indicators.any (fun ind => strContains (pyLower message) ind))
    && decide (0 < context.history.length)

/-- History length of a session in a conversations mapping (0 when the
session is absent). -/
def histLen (m : ConvMap) (session_id : String) : Nat :=
  ((m session_id).getD freshSession).history.length

/-- The current_service field of a session (none when absent). -/
def svcOf (m : ConvMap) (session_id : String) : Option String :=
  ((m session_id).getD freshSession).current_service

/-- The current_topic field of a session (none when absent). -/
def topicOf (m : ConvMap) (session_id : String) : Option String :=
  ((m session_id).getD freshSession).current_topic

/-- The arguments of one store_context call. -/
structure StoreOp where
  user : String
  bot : String
  service : Option String
  topic : Option String
  ts : String

/-- Iterate store_context over a list of calls against one session id. -/
def applyStores (m : ConvMap) (session_id : String) : List StoreOp → ConvMap
  | [] => m
  | op :: ops => applyStores (store_context m session_id op.user op.bot op.service op.topic op.ts) session_id ops

theorem store_context_histLen (m : ConvMap) (sid u b : String) (s t : Option String) (ts : String) :
    histLen (store_context m sid u b s t ts) sid = histLen m sid + 1 := by
  unfold histLen store_context
  rw [if_pos rfl]
  split <;> split <;> simp

theorem store_context_svcOf_untruthy (m : ConvMap) (sid u b : String) (service topic : Option String)
    (ts : String) (h : pyTruthy service = false) :
    svcOf (store_context m sid u b service topic ts) sid = svcOf m sid := by
  unfold svcOf store_context
  rw [if_pos rfl]
  simp only [h, Bool.false_eq_true, if_false]
  split <;> simp

theorem store_context_topicOf_untruthy (m : ConvMap) (sid u b : String) (service topic : Option String)
    (ts : String) (h : pyTruthy topic = false) :
    topicOf (store_context m sid u b service topic ts) sid = topicOf m sid := by
  unfold topicOf store_context
  rw [if_pos rfl]
  simp only [h, Bool.false_eq_true, if_false]
  split <;> simp

theorem applyStores_histLen (sid : String) (ops : List StoreOp) (m : ConvMap) :
    histLen (applyStores m sid ops) sid = histLen m sid + ops.length := by
  induction ops generalizing m with
  | nil => simp [applyStores]
  | cons op ops ih =>
    simp only [applyStores, ih, store_context_histLen, List.length_cons]
    omega

/-- C4: store_context is monotonic and sticky.  History length after N
stores into a fresh (absent) session equals N, and the current_service /
current_topic fields change only when a non-null value is supplied: storing
with service=None never clears a previously set current_service, and
likewise for topic. -/
theorem store_context_monotonic_and_sticky :
    (∀ (m : ConvMap) (sid : String), m sid = none →
       ∀ ops : List StoreOp, histLen (applyStores m sid ops) sid = ops.length)
    ∧ (∀ (m : ConvMap) (sid u b : String) (topic : Option String) (ts : String),
       svcOf (store_context m sid u b none topic ts) sid = svcOf m sid)
    ∧ (∀ (m : ConvMap) (sid u b : String) (service : Option String) (ts : String),
       topicOf (store_context m sid u b service none ts) sid = topicOf m sid) := by
  refine ⟨?_, ?_, ?_⟩
  · intro m sid h ops
    rw [applyStores_histLen]
    simp [histLen, h, freshSession]
  · intro m sid u b topic ts
    exact store_context_svcOf_untruthy m sid u b none topic ts rfl
  · intro m sid u b service ts
    exact store_context_topicOf_untruthy m sid u b service none ts rfl

/-- Witness for C4 at a concrete input: two stores into a fresh session
give history length 2, and a none-service store preserves the sticky
service set by an earlier store. -/
theorem store_context_monotonic_and_sticky_witness :
    (empty_conversations "s" = none
      ∧ histLen (applyStores empty_conversations "s"
          [{ user := "u1", bot := "b1", service := some "ec2", topic := none, ts := "t1" },
           { user := "u2", bot := "b2", service := none, topic := none, ts := "t2" }]) "s" = 2)
    ∧ svcOf (store_context
        (store_context empty_conversations "s" "u1" "b1" (some "ec2") none "t1")
        "s" "u2" "b2" none none "t2") "s"
      = svcOf (store_context empty_conversations "s" "u1" "b1" (some "ec2") none "t1") "s" :=
  ⟨⟨rfl, store_context_monotonic_and_sticky.1 empty_conversations "s" rfl _⟩,
   store_context_monotonic_and_sticky.2.1
     (store_context empty_conversations "s" "u1" "b1" (some "ec2") none "t1") "s" "u2" "b2" none "t2"⟩

/-- C9: the stickiness guard is a truthiness check, so the empty string —
like None — can never overwrite or clear a sticky field: storing with
service equal to the empty string leaves current_service unchanged, and
likewise for topic. -/
theorem store_context_empty_string_sticky :
    (∀ (m : ConvMap) (sid u b : String) (topic : Option String) (ts : String),
       svcOf (store_context m sid u b (some "") topic ts) sid = svcOf m sid)
    ∧ (∀ (m : ConvMap) (sid u b : String) (service : Option String) (ts : String),
       topicOf (store_context m sid u b service (some "") ts) sid = topicOf m sid) := by
  refine ⟨?_, ?_⟩
  · intro m sid u b topic ts
    exact store_context_svcOf_untruthy m sid u b (some "") topic ts rfl
  · intro m sid u b service ts
    exact store_context_topicOf_untruthy m sid u b service (some "") ts rfl

/-- C6: is_follow_up is false whenever the session history is empty,
regardless of the text content. -/
theorem is_follow_up_empty_history (message : String) (context : SessionData)
    (h : context.history = []) : is_follow_up message context = false := by
  simp [is_follow_up, h]

/-- Witness for C6: a text full of follow-up indicators is still not a
follow-up against the fresh (empty-history) context. -/
theorem is_follow_up_empty_history_witness :
    freshSession.history = [] ∧ is_follow_up "aur kya detail batao" freshSession = false :=
  ⟨rfl, is_follow_up_empty_history "aur kya detail batao" freshSession rfl⟩

/-- A practice question as produced by PracticeQuestionGenerator (question
text, options, zero-based correct index, explanation, service, difficulty,
topic). -/
structure Question where
  question : String
  options : List String
  correct : Nat
  explanation : String
  service : Option String
  difficulty : String
  topic : String
deriving DecidableEq

/-- The s3_beginner entry of the fixed fallback table. -/
def s3_beginner_question : Question :=
  { question := "S3 bucket create karne ke liye minimum kya chahiye?",
    options := ["Bucket name aur region", "Only bucket name", "Name, region aur policy", "AWS account only"],
    correct := 0,
    explanation := "Bucket name unique hona chahiye globally aur region select karna zaroori hai.",
    service := some "s3",
    difficulty := "beginner",
    topic := "basic" }

/-- The ec2_intermediate entry of the fixed fallback table. -/
def ec2_intermediate_question : Question :=
  { question := "Production environment ke liye EC2 instance choose karte time kya consider karna chahiye?",
    options := ["Only price", "CPU aur memory requirements", "All resources aur redundancy", "Storage type only"],
    correct := 2,
    explanation := "Production mein CPU, memory, storage, network aur high availability sab consider karna padta hai yaar.",
    service := some "ec2",
    difficulty := "intermediate",
    topic := "production" }

/-- Python attribute access value.upper() on a possibly-None string: on
None it raises AttributeError. -/
def pyUpperOpt : Option String → Except PyErr String
  | none => Except.error (PyErr.attributeError "NoneType object has no attribute upper")
  | some s => Except.ok (pyUpperStr s)

/-- PracticeQuestionGenerator.get_fallback_question.  The default entry of
the dictionary lookup interpolates service.upper(), which Python evaluates
eagerly while building the default argument: with service None this raises
AttributeError before any lookup happens.  (With service a string the key
"{service}_{difficulty}" can only hit the two fixed table entries when
service is that entry's string, so the observable result below matches the
source's dict construction plus .get.) -/
def get_fallback_question (service : Option String) (difficulty : String) : Except PyErr Question :=
  let key := pyStr service ++ "_" ++ difficulty
  match service with
  | none => Except.error (PyErr.attributeError "NoneType object has no attribute upper")
  | some s =>
    let defaultQuestion : Question :=
      { question := pyUpperStr s ++ " ke baare mein ek question generate nahi kar paya yaar!",
        options := ["Try again", "Different service", "Check connection", "Contact support"],
        correct := 0,
        explanation := "Technical issue hai, phir se try karo.",
        service := some s,
        difficulty := difficulty,
        topic := "error" }
    if key = "s3_beginner" then Except.ok s3_beginner_question
    else if key = "ec2_intermediate" then Except.ok ec2_intermediate_question
    else Except.ok defaultQuestion

/-- PracticeQuestionGenerator.generate_question in the generation-disabled
configuration (model is None): the try body immediately returns
get_fallback_question; if that raises, the except handler calls
get_fallback_question a second time, whose identical exception then
propagates to the caller.  The topic argument is unused on this path. -/
def generate_question (service : Option String) (difficulty : String) (topic : Option String) :
    Except PyErr Question :=
  let _ := topic
  match get_fallback_question service difficulty with
  | Except.ok q => Except.ok q
  | Except.error _ => get_fallback_question service difficulty

/-- C8: get_fallback_question("s3", "beginner") returns the fixed question
with correct = 0 and exactly 4 options; and every question the function
returns satisfies the PracticeQuestion invariant: correct index in [0, 3]
and exactly 4 options. -/
theorem fallback_question_invariant :
    (get_fallback_question (some "s3") "beginner" = Except.ok s3_beginner_question
      ∧ s3_beginner_question.correct = 0
      ∧ s3_beginner_question.options.length = 4)
    ∧ (∀ (service : Option String) (difficulty : String) (q : Question),
        get_fallback_question service difficulty = Except.ok q →
        q.correct ≤ 3 ∧ q.options.length = 4) := by
  refine ⟨⟨rfl, rfl, rfl⟩, ?_⟩
  intro service difficulty q h
  match service with
  | none => simp [get_fallback_question] at h
  | some s =>
    simp only [get_fallback_question] at h
    split at h
    · cases h
      exact ⟨(by decide : (0 : Nat) ≤ 3), rfl⟩
    · split at h
      · cases h
        exact ⟨(by decide : (2 : Nat) ≤ 3), rfl⟩
      · cases h
        exact ⟨(by decide : (0 : Nat) ≤ 3), rfl⟩

/-- Witness for C8's universally-quantified invariant at a concrete input:
the ec2_intermediate fallback question has a correct index in range and 4
options. -/
theorem fallback_question_invariant_witness :
    ec2_intermediate_question.correct ≤ 3 ∧ ec2_intermediate_question.options.length = 4 :=
  fallback_question_invariant.2 (some "ec2") "intermediate" ec2_intermediate_question rfl

/-- The keyword table of OptimizedAWSChatbot.detect_service, in its
declaration order. -/
def service_keywords : List (String × List String) := [
  ("ec2", ["ec2", "instance", "server", "virtual machine", "ami", "compute"]),
  ("s3", ["s3", "bucket", "storage", "object", "file storage"]),
  ("lambda", ["lambda", "serverless", "function", "faas"]),
  ("iam", ["iam", "user", "role", "permission", "policy", "access"]),
  ("vpc", ["vpc", "network", "subnet", "security group", "routing"]),
  ("rds", ["rds", "database", "mysql", "postgres", "sql"]),
  ("cloudwatch", ["cloudwatch", "monitoring", "logs", "metrics", "alarm"])]

/-- The score of one service against the lowered message: each keyword that
occurs as a substring contributes weight 2. -/
def svcScore (msg_lower : String) (keywords : List String) : Nat :=
  (keywords.map (fun k => if strContains msg_lower k then 2 else 0)).sum

/-- One step of building the scores dictionary: a service enters it iff its
score is positive. -/
def scoreEntry (msg_lower : String) (p : String × List String) : Option (String × Nat) :=
  if 0 < svcScore msg_lower p.2 then some (p.1, svcScore msg_lower p.2) else none

/-- The scores dictionary of detect_service as an ordered association list
(Python dict insertion order is the table order). -/
def scoredServices (msg_lower : String) : List (String × Nat) :=
  service_keywords.filterMap (scoreEntry msg_lower)

/-- Python max(scores, key=scores.get): a left fold that replaces the
current best only on a strictly greater value, so the first element
attaining the maximum wins. -/
def pymaxAux (best : String × Nat) : List (String × Nat) → String × Nat
  | [] => best
  | x :: xs => pymaxAux (if best.2 < x.2 then x else best) xs

/-- OptimizedAWSChatbot.detect_service. -/
def detect_service (message : String) : Option String :=
  match scoredServices (pyLower message) with
  | [] => none
  | x :: xs => some (pymaxAux x xs).1

/-- OptimizedAWSChatbot.detect_topic: first subtopic of the service whose
lowered text occurs in the lowered message; none when the service is
falsy or unknown. -/
def detect_topic (message : String) (service : Option String) : Option String :=
  if !(pyTruthy service) then none
  else
    match awsGet (pyStr service) with
    | none => none
    | some si => si.subtopics.find? (fun t => strContains (pyLower message) (pyLower t))

/-- OptimizedAWSChatbot.detect_access_method: first matching category in
the order console, cli, sdk. -/
def detect_access_method (message : String) : Option String :=
  let ml := pyLower message
  if ["console", "gui", "dashboard", "web", "ui"].any (fun w => strContains ml w) then some "console"
  else if ["cli", "command", "terminal", "cmd"].any (fun w => strContains ml w) then some "cli"
  else if ["sdk", "python", "boto3", "code", "javascript", "api"].any (fun w => strContains ml w) then some "sdk"
  else none

theorem pymaxAux_spec (l : List (String × Nat)) (best : String × Nat) :
    ∃ l₁ l₂, best :: l = l₁ ++ pymaxAux best l :: l₂
      ∧ (∀ p ∈ l₁, p.2 < (pymaxAux best l).2)
      ∧ (∀ p ∈ best :: l, p.2 ≤ (pymaxAux best l).2) := by
  induction l generalizing best with
  | nil =>
    refine ⟨[], [], rfl, by simp, ?_⟩
    intro p hp
    rcases List.mem_singleton.mp hp with rfl
    exact Nat.le_refl _
  | cons x xs ih =>
    simp only [pymaxAux]
    by_cases h : best.2 < x.2
    · rw [if_pos h]
      obtain ⟨l₁, l₂, e, hlt, hle⟩ := ih x
      have hxr : x.2 ≤ (pymaxAux x xs).2 := hle x (List.mem_cons_self x xs)
      refine ⟨best :: l₁, l₂, ?_, ?_, ?_⟩
      · rw [List.cons_append, ← e]
      · intro p hp
        rcases List.mem_cons.mp hp with h9 | hp
        · subst h9
          exact Nat.lt_of_lt_of_le h hxr
        · exact hlt p hp
      · intro p hp
        rcases List.mem_cons.mp hp with h9 | hp
        · subst h9
          exact Nat.le_of_lt (Nat.lt_of_lt_of_le h hxr)
        · exact hle p hp
    · rw [if_neg h]
      obtain ⟨l₁, l₂, e, hlt, hle⟩ := ih best
      have hxb : x.2 ≤ best.2 := Nat.le_of_not_lt h
      rcases l₁ with _ | ⟨q, l₁'⟩
      · rw [List.nil_append] at e
        injection e with e1 e2
        refine ⟨[], x :: xs, ?_, by simp, ?_⟩
        · rw [List.nil_append, ← e1]
        · intro p hp
          rcases List.mem_cons.mp hp with h9 | hp
          · subst h9
            rw [← e1]
          · rcases List.mem_cons.mp hp with h9 | hp
            · subst h9
              rw [← e1]
              exact hxb
            · exact hle p (List.mem_cons_of_mem best hp)
      · rw [List.cons_append] at e
        injection e with e1 e2
        have hbr : best.2 < (pymaxAux best xs).2 := by
          have hq := hlt q (List.mem_cons_self q l₁')
          rw [← e1] at hq
          exact hq
        refine ⟨best :: x :: l₁', l₂, ?_, ?_, ?_⟩
        · rw [List.cons_append, List.cons_append, ← e2]
        · intro p hp
          rcases List.mem_cons.mp hp with h9 | hp
          · subst h9
            exact hbr
          · rcases List.mem_cons.mp hp with h9 | hp
            · subst h9
              exact Nat.lt_of_le_of_lt hxb hbr
            · exact hlt p (List.mem_cons_of_mem q hp)
        · intro p hp
          rcases List.mem_cons.mp hp with h9 | hp
          · subst h9
            exact hle _ (List.mem_cons_self _ _)
          · rcases List.mem_cons.mp hp with h9 | hp
            · subst h9
              exact Nat.le_trans hxb (hle _ (List.mem_cons_self _ _))
            · exact hle p (List.mem_cons_of_mem _ hp)

theorem scoreEntry_eq_none {ml : String} {p : String × List String}
    (h : scoreEntry ml p = none) : svcScore ml p.2 = 0 := by
  unfold scoreEntry at h
  split at h
  · exact absurd h (by simp)
  · omega

theorem scoreEntry_eq_some {ml : String} {p : String × List String} {r : String × Nat}
    (h : scoreEntry ml p = some r) : r = (p.1, svcScore ml p.2) ∧ 0 < svcScore ml p.2 := by
  unfold scoreEntry at h
  split at h
  · cases h
    exact ⟨rfl, by assumption⟩
  · exact absurd h (by simp)

theorem mem_scoredServices {ml : String} {p : String × List String}
    (hp : p ∈ service_keywords) (hpos : 0 < svcScore ml p.2) :
    (p.1, svcScore ml p.2) ∈ scoredServices ml := by
  unfold scoredServices
  refine List.mem_filterMap.mpr ⟨p, hp, ?_⟩
  unfold scoreEntry
  rw [if_pos hpos]

/-- C5: detect_service returns none or a member of the fixed known-service
set; it returns none exactly when every service's keyword score against the
lowered message is zero; otherwise it returns the highest-scoring service,
ties broken by the first service attaining the maximum in the fixed table
order (the returned service's table position splits the table so that every
earlier service scores strictly less, and no service scores more); and the
result is deterministic for identical input. -/
theorem detect_service_correct (msg : String) :
    (detect_service msg = none ↔ ∀ p ∈ service_keywords, svcScore (pyLower msg) p.2 = 0)
    ∧ (∀ s, detect_service msg = some s →
        s ∈ ["ec2", "s3", "lambda", "iam", "vpc", "rds", "cloudwatch"]
        ∧ ∃ l₁ kws l₂, service_keywords = l₁ ++ (s, kws) :: l₂
            ∧ 0 < svcScore (pyLower msg) kws
            ∧ (∀ p ∈ service_keywords, svcScore (pyLower msg) p.2 ≤ svcScore (pyLower msg) kws)
            ∧ (∀ p ∈ l₁, svcScore (pyLower msg) p.2 < svcScore (pyLower msg) kws))
    ∧ detect_service msg = detect_service msg := by
  refine ⟨⟨?_, ?_⟩, ?_, rfl⟩
  · intro h p hp
    rcases hS : scoredServices (pyLower msg) with _ | ⟨x, xs⟩
    · have hnil : List.filterMap (scoreEntry (pyLower msg)) service_keywords = [] := by
        simpa [scoredServices] using hS
      exact scoreEntry_eq_none (List.filterMap_eq_nil_iff.mp hnil p hp)
    · simp only [detect_service, hS] at h
      exact Option.noConfusion h
  · intro hz
    have hS : scoredServices (pyLower msg) = [] := by
      unfold scoredServices
      rw [List.filterMap_eq_nil_iff]
      intro p hp
      simp [scoreEntry, hz p hp]
    simp only [detect_service, hS]
  · intro s h
    rcases hS : scoredServices (pyLower msg) with _ | ⟨x, xs⟩
    · simp only [detect_service, hS] at h
      exact Option.noConfusion h
    · simp only [detect_service, hS, Option.some.injEq] at h
      obtain ⟨S₁, S₂, e, hlt, hle⟩ := pymaxAux_spec xs x
      have hfm : List.filterMap (scoreEntry (pyLower msg)) service_keywords
          = S₁ ++ pymaxAux x xs :: S₂ := by
        have h0 : scoredServices (pyLower msg) = S₁ ++ pymaxAux x xs :: S₂ := by
          rw [hS]; exact e
        simpa [scoredServices] using h0
      obtain ⟨la, lb, hLsplit, hfa, hfb⟩ := List.filterMap_eq_append_iff.mp hfm
      obtain ⟨lb₁, a, lb₂, hLb, hnone, hsome, hfb₂⟩ := List.filterMap_eq_cons_iff.mp hfb
      obtain ⟨hra, hpos⟩ := scoreEntry_eq_some hsome
      have ha1 : a.1 = s := by rw [← h, hra]
      have haeta : a = (s, a.2) := by
        rw [← ha1]
      have hK2 : service_keywords = (la ++ lb₁) ++ (s, a.2) :: lb₂ := by
        rw [hLsplit, hLb, List.append_assoc, ← haeta]
      have hmem : (s, a.2) ∈ service_keywords := by
        rw [hK2]
        exact List.mem_append_right _ (List.mem_cons_self _ _)
      have hsin : s ∈ ["ec2", "s3", "lambda", "iam", "vpc", "rds", "cloudwatch"] := by
        simp only [service_keywords, List.mem_cons, List.not_mem_nil, or_false] at hmem
        rcases hmem with h7 | h7 | h7 | h7 | h7 | h7 | h7 <;>
          · rw [Prod.mk.injEq] at h7
            simp [h7.1]
      have hr2 : (pymaxAux x xs).2 = svcScore (pyLower msg) a.2 := by
        rw [hra]
      have hglob : ∀ p ∈ service_keywords,
          svcScore (pyLower msg) p.2 ≤ svcScore (pyLower msg) a.2 := by
        intro p hp
        by_cases hz : 0 < svcScore (pyLower msg) p.2
        · have hmem2 : (p.1, svcScore (pyLower msg) p.2) ∈ scoredServices (pyLower msg) :=
            mem_scoredServices hp hz
          rw [hS] at hmem2
          have hple := hle _ hmem2
          rw [hr2] at hple
          exact hple
        · omega
      have hpre : ∀ p ∈ la ++ lb₁,
          svcScore (pyLower msg) p.2 < svcScore (pyLower msg) a.2 := by
        intro p hp
        rcases List.mem_append.mp hp with hp | hp
        · by_cases hz : 0 < svcScore (pyLower msg) p.2
          · have hmem2 : (p.1, svcScore (pyLower msg) p.2) ∈ S₁ := by
              rw [← hfa]
              refine List.mem_filterMap.mpr ⟨p, hp, ?_⟩
              unfold scoreEntry
              rw [if_pos hz]
            have hplt := hlt _ hmem2
            rw [hr2] at hplt
            exact hplt
          · omega
        · have hz := scoreEntry_eq_none (hnone p hp)
          omega
      exact ⟨hsin, la ++ lb₁, a.2, lb₂, hK2, hpos, hglob, hpre⟩

/-- Witness for C5 at a concrete input: for the message "s3 bucket kaise
banaye" the detector returns "s3", which is in the known-service set and
splits the table as the first maximal-scoring service. -/
theorem detect_service_correct_witness :
    "s3" ∈ ["ec2", "s3", "lambda", "iam", "vpc", "rds", "cloudwatch"]
    ∧ ∃ l₁ kws l₂, service_keywords = l₁ ++ ("s3", kws) :: l₂
        ∧ 0 < svcScore (pyLower "s3 bucket kaise banaye") kws
        ∧ (∀ p ∈ service_keywords,
            svcScore (pyLower "s3 bucket kaise banaye") p.2
              ≤ svcScore (pyLower "s3 bucket kaise banaye") kws)
        ∧ (∀ p ∈ l₁, svcScore (pyLower "s3 bucket kaise banaye") p.2
              < svcScore (pyLower "s3 bucket kaise banaye") kws) :=
  (detect_service_correct "s3 bucket kaise banaye").2.1 "s3" (by decide)

/-- The enumerated troubleshooting lines: Python
for i, issue in enumerate(list, 1): response += f"{i}. {issue}\n". -/
def enumLines (i : Nat) : List String → String
  | [] => ""
  | s :: rest => toString i ++ ". " ++ s ++ "\n" ++ enumLines (i + 1) rest

/-- OptimizedAWSChatbot.format_service_info: deterministic formatted reply
from the knowledge base — access-method-specific section if requested,
otherwise all three methods; then numbered troubleshooting steps, related
subtopics and a closing question. -/
def format_service_info (service : String) (access_method topic : Option String) : String :=
  match awsGet service with
  | none => "Sorry yaar, " ++ service ++ " ke baare mein detailed info nahi hai abhi."
  | some si =>
    let r0 := "## **" ++ si.name ++ "**\n\n" ++ si.description ++ "\n\n"
    let r1 :=
      if pyTruthy topic then
        r0 ++ "**" ++ pyTitle (pyStr topic) ++ "** ke baare mein specific info:\n\n"
      else r0
    let r2 :=
      if pyTruthy access_method then
        if pyStr access_method = "console" then
          r1 ++ "**Console Steps:**\n" ++ si.console ++ "\n\n"
        else if pyStr access_method = "cli" then
          r1 ++ "**CLI Command:**\n```bash\n" ++ si.cli ++ "\n```\n\n"
        else if pyStr access_method = "sdk" then
          r1 ++ "**SDK Code:**\n```python\n" ++ si.sdk ++ "\n```\n\n"
        else r1
      else
        r1 ++ "**Access kaise kare:**\n"
          ++ "• **Console**: " ++ si.console ++ "\n"
          ++ "• **CLI**: `" ++ si.cli ++ "`\n"
          ++ "• **SDK**: `" ++ si.sdk ++ "`\n\n"
    let r3 := r2 ++ "**Common Issues aur Solutions:**\n" ++ enumLines 1 si.troubleshoot
    let r4 :=
      if si.subtopics.isEmpty then r3
      else r3 ++ "\n**Related Topics:** " ++ String.intercalate ", " si.subtopics ++ "\n"
    r4 ++ "\n" ++ pyUpperStr service ++ " ke baare mein aur kya jaanna hai?"

set_option maxRecDepth 40000

/-- C7: for the message "ec2 instance kaise launch kare console mein" the
detector finds service "ec2", access method "console" and topic "launch";
the formatted fallback reply (generation disabled) contains the literal EC2
console-instructions string of the knowledge base, and contains neither the
CLI section nor the SDK section (neither the section headers nor the
knowledge-base CLI/SDK instruction strings occur in it). -/
theorem ec2_console_scenario :
    detect_service "ec2 instance kaise launch kare console mein" = some "ec2"
    ∧ detect_access_method "ec2 instance kaise launch kare console mein" = some "console"
    ∧ detect_topic "ec2 instance kaise launch kare console mein" (some "ec2") = some "launch"
    ∧ (awsGet "ec2").map ServiceEntry.console
        = some "EC2 Dashboard → Launch Instance → Select AMI → Choose Instance Type → Configure → Launch"
    ∧ (awsGet "ec2").map ServiceEntry.cli
        = some "aws ec2 run-instances --image-id ami-xxxxx --instance-type t2.micro"
    ∧ (awsGet "ec2").map ServiceEntry.sdk
        = some "boto3.client(\"ec2\").run_instances(ImageId=\"ami-xxx\", InstanceType=\"t2.micro\")"
    ∧ strContains (format_service_info "ec2" (some "console") (some "launch"))
        "EC2 Dashboard → Launch Instance → Select AMI → Choose Instance Type → Configure → Launch" = true
    ∧ strContains (format_service_info "ec2" (some "console") (some "launch"))
        "**CLI Command:**" = false
    ∧ strContains (format_service_info "ec2" (some "console") (some "launch"))
        "**SDK Code:**" = false
    ∧ strContains (format_service_info "ec2" (some "console") (some "launch"))
        "aws ec2 run-instances --image-id ami-xxxxx --instance-type t2.micro" = false
    ∧ strContains (format_service_info "ec2" (some "console") (some "launch"))
        "boto3.client(\"ec2\").run_instances(ImageId=\"ami-xxx\", InstanceType=\"t2.micro\")" = false := by
  refine ⟨by decide, by decide, by decide, by decide, by decide, by decide, ?_, ?_, ?_, ?_, ?_⟩
    <;> decide

/-- The Python objects relevant to the /api/config handler: a dict with
keys, or a plain function object (which has no .keys attribute). -/
inductive PyObject where
  | pyFunction (name : String)
  | pyDict (entries : List (String × String))
deriving DecidableEq

/-- Python attribute call value.keys(): succeeds on a dict, raises
AttributeError on a function object. -/
def pyObjectKeys : PyObject → Except PyErr (List String)
  | PyObject.pyDict entries => Except.ok (entries.map Prod.fst)
  | PyObject.pyFunction n =>
      Except.error (PyErr.attributeError ("function object " ++ n ++ " has no attribute keys"))

/-- The name get_practice_question resolves to at module level: the Flask
route handler function defined for POST /api/practice — a function object,
not a dictionary. -/
def get_practice_question_object : PyObject :=
  PyObject.pyFunction "get_practice_question"

/-- The JSON body the /api/config handler tries to build. -/
structure ConfigResponse where
  gemini_configured : Bool
  services_count : Nat
  question_categories : List String
deriving DecidableEq

/-- The /api/config handler get_config: it evaluates
list(get_practice_question.keys()) while building the response body. -/
def get_config (gemini_configured : Bool) : Except PyErr ConfigResponse :=
  match pyObjectKeys get_practice_question_object with
  | Except.error e => Except.error e
  | Except.ok cats =>
      Except.ok { gemini_configured := gemini_configured,
                  services_count := AWS_SERVICES.length,
                  question_categories := cats }

/-- The HTTP status the GET /api/config route produces: 200 on a built
body, 500 when the handler raises (Flask converts an unhandled exception
into a 500 response). -/
def get_config_route (gemini_configured : Bool) : Nat :=
  match get_config gemini_configured with
  | Except.ok _ => 200
  | Except.error _ => 500

/-- C1: the /api/config handler always faults — get_practice_question is
the route handler function, so .keys() raises AttributeError in every
request, in both configurations, and the route returns 500, never 200 with
the configuration flags and counts. -/
theorem get_config_always_faults :
    get_config true
      = Except.error (PyErr.attributeError "function object get_practice_question has no attribute keys")
    ∧ get_config false
      = Except.error (PyErr.attributeError "function object get_practice_question has no attribute keys")
    ∧ get_config_route true = 500
    ∧ get_config_route false = 500 :=
  ⟨rfl, rfl, rfl, rfl⟩

/-- The greeting words checked against the lowered message (substring
match, so e.g. "hi" also fires inside longer words). -/
def greeting_words : List String := ["hello", "hi", "hey", "namaste", "aur bhai"]

/-- The practice-request trigger words. -/
def practice_words : List String := ["practice", "quiz", "question", "test"]

/-- Whether the greeting branch of process_message triggers. -/
def greetingHit (message : String) : Bool :=
  greeting_words.any (fun g => strContains (pyLower message) g)

/-- Whether the practice branch of process_message triggers. -/
def practiceHit (message : String) : Bool :=
  practice_words.any (fun w => strContains (pyLower message) w)

/-- Difficulty parsed from the message: advanced, else intermediate, else
beginner. -/
def parse_difficulty (message : String) : String :=
  if strContains (pyLower message) "advanced" then "advanced"
  else if strContains (pyLower message) "intermediate" then "intermediate"
  else "beginner"

/-- The static greeting reply of the greeting branch. -/
def greeting_text : String :=
  "# **Namaste yaar! 🙏 AWS Expert Assistant**\n\nAWS sikhne aur troubleshoot karne ke liye ready hun!\n\n## **Main kya kar sakta hun:**\n\n• **Service Explanations** - EC2, S3, Lambda, IAM, VPC, RDS, CloudWatch\n• **Step-by-Step Guides** - Console, CLI, aur SDK sab methods\n• **Troubleshooting Help** - Problems solve karne mein madad  \n• **Practice Questions** - Dynamic AI-generated quiz\n• **Screenshot Analysis** - AWS console ki images dekh kar help\n• **Follow-up Support** - Detailed discussions\n\n## **Popular Services:**\n1. **EC2** - Virtual servers aur compute\n2. **S3** - Object storage aur static hosting  \n3. **Lambda** - Serverless functions\n4. **IAM** - Users aur permissions\n\nKya sikhna chahte ho today? 🚀"

/-- The general capabilities menu returned when generation is disabled and
no service was detected. -/
def menu_text : String :=
  "# **AWS Services Available**\n\nMain tumhe ye sab services mein help kar sakta hun:\n\n## **Compute Services:**\n• **EC2** - Virtual servers aur instances\n• **Lambda** - Serverless functions\n\n## **Storage Services:**  \n• **S3** - Object storage aur static hosting\n\n## **Database Services:**\n• **RDS** - Managed relational databases\n\n## **Networking:**\n• **VPC** - Virtual private cloud\n\n## **Security:**\n• **IAM** - Identity and access management\n\n## **Monitoring:**\n• **CloudWatch** - Logs aur metrics\n\n**Kya specific service ke baare mein jaanna hai?** \nFormat: \"S3 console mein kaise use kare\" ya \"EC2 troubleshoot karo\" 🤔"

/-- The fixed apology the top-level except handler substitutes for the
response message. -/
def apology_text : String :=
  "**Oops! Technical Issue 😅**\n\nKuch gadbad ho gayi yaar! Possible solutions:\n\n1. **Phir se try karo** - Message resend kar do\n2. **Simple language** - Basic English ya Hindi mein poocho  \n3. **Specific question** - Exact service name mention karo\n\n**Example:** \"S3 bucket kaise banate hain console mein?\"\n\nMain phir ready hun! 🚀"

/-- The fixed reply of analyze_screenshot when generation is disabled (it
returns before any image decoding). -/
def screenshot_unavailable_text : String :=
  "**Screenshot Analysis Not Available** 📷\n\nGemini API key nahi mila yaar! \n\n**Alternative Solutions:**\n1. **Describe karo** - Text mein batao kya dikh raha hai\n2. **Error message** - Jo error aa rahi hai wo copy paste kar do  \n3. **Service name** - Konsi AWS service use kar rahe ho\n\n**API Key setup ke liye:** `export GEMINI_API_KEY=\x27your-key\x27`"

/-- The JSON body of a chat response (code_examples and troubleshooting
are initialised to null and never written by the modelled paths). -/
structure Response where
  message : String
  service_info : Option ServiceEntry
  code_examples : Option String
  troubleshooting : Option String
  practice_question : Option Question
  session_id : String
  follow_up_suggestions : List String
deriving DecidableEq

/-- The up-to-3 templated follow-up prompts derived from the detected
service's subtopic list. -/
def follow_up_suggestions_for (service : String) : List String :=
  let subtopics := match awsGet service with
    | some si => si.subtopics
    | none => []
  (subtopics.take 3).map (fun t => pyUpperStr service ++ " " ++ t ++ " ke baare mein batao")

/-- The store_context call after the except handler (app.py line 521): it
reads the locals detected_service and detected_topic left by the try body.
A slot that was never assigned on the executed path raises
UnboundLocalError (Python evaluates the arguments left to right), aborting
before any store happens. -/
def final_store (m : ConvMap) (session_id message respMessage : String)
    (ds dt : Option (Option String)) (ts : String) : Except PyErr ConvMap :=
  match ds, dt with
  | none, _ => Except.error (PyErr.unboundLocal "detected_service")
  | some _, none => Except.error (PyErr.unboundLocal "detected_topic")
  | some s, some t => Except.ok (store_context m session_id message respMessage s t ts)

/-- OptimizedAWSChatbot.process_message in the generation-disabled
configuration.  Notes on fidelity.  (1) get_context always returns a dict
containing the key current_service, so the source's
context.get('current_service', 'general') is the stored value (possibly
None) and the 'general' default is unreachable; the embedding therefore
reads context.current_service directly and keeps the source's comparison
against "general".  (2) random.choice over the service keys is the pick
parameter.  (3) A fault in the practice branch is caught by the top-level
handler (which sets the apology message); the branch assigned
detected_service (line 418) but never detected_topic, so the final
store_context is modelled through final_store with an unassigned
detected_topic slot.  (4) The greeting and practice branches return from
inside the try block, storing context themselves with service and topic
None. -/
def process_message (m : ConvMap) (message0 : String) (image_data : Option String)
    (session_id : Option String) (default_session_id : String)
    (pick : List String → String) (ts : String) : Except PyErr (Response × ConvMap) :=
  let sid := if pyTruthy session_id then pyStr session_id else default_session_id
  let context := get_context m sid
  let resp0 : Response :=
    { message := "", service_info := none, code_examples := none, troubleshooting := none,
      practice_question := none, session_id := sid, follow_up_suggestions := [] }
  if greetingHit message0 then
    let resp := { resp0 with message := greeting_text }
    Except.ok (resp, store_context m sid message0 resp.message none none ts)
  else if practiceHit message0 then
    let difficulty := parse_difficulty message0
    let detected_service := pyOr (detect_service message0) context.current_service
    let topic := if detected_service ≠ some "general" then detect_topic message0 detected_service else none
    if detected_service ≠ some "general" then
      match generate_question detected_service difficulty topic with
      | Except.error _ =>
        match final_store m sid message0 apology_text (some detected_service) none ts with
        | Except.ok m2 => Except.ok ({ resp0 with message := apology_text }, m2)
        | Except.error e => Except.error e
      | Except.ok q =>
        match pyUpperOpt detected_service with
        | Except.error _ =>
          match final_store m sid message0 apology_text (some detected_service) none ts with
          | Except.ok m2 => Except.ok ({ resp0 with message := apology_text }, m2)
          | Except.error e => Except.error e
        | Except.ok up =>
          let resp := { resp0 with practice_question := some q,
                                   message := "**" ++ up ++ " Practice Question** (" ++ difficulty ++ " level) 🤔" }
          Except.ok (resp, store_context m sid message0 resp.message none none ts)
    else
      let random_service := pick (AWS_SERVICES.map Prod.fst)
      match generate_question (some random_service) difficulty none with
      | Except.error _ =>
        match final_store m sid message0 apology_text (some detected_service) none ts with
        | Except.ok m2 => Except.ok ({ resp0 with message := apology_text }, m2)
        | Except.error e => Except.error e
      | Except.ok q =>
        let resp := { resp0 with practice_question := some q,
                                 message := "**Random AWS Practice Question** (" ++ difficulty ++ " level) 🤔" }
        Except.ok (resp, store_context m sid message0 resp.message none none ts)
  else
    let detected_service0 := detect_service message0
    let detected_topic := if pyTruthy detected_service0 then detect_topic message0 detected_service0 else none
    let access_method := detect_access_method message0
    let followup_rewrite := is_follow_up message0 context && pyTruthy context.current_service
    let detected_service := if followup_rewrite then pyOr detected_service0 context.current_service
                            else detected_service0
    let message := if followup_rewrite then
                     "Follow-up about " ++ pyStr context.current_service ++ ": " ++ message0
                   else message0
    if pyTruthy image_data then
      let resp := { resp0 with message := screenshot_unavailable_text }
      Except.ok (resp, store_context m sid message resp.message none none ts)
    else
      let resp1 :=
        if pyTruthy detected_service then
          { resp0 with message := format_service_info (pyStr detected_service) access_method detected_topic,
                       service_info := awsGet (pyStr detected_service) }
        else { resp0 with message := menu_text }
      let resp :=
        if pyTruthy detected_service then
          { resp1 with follow_up_suggestions := follow_up_suggestions_for (pyStr detected_service) }
        else resp1
      match final_store m sid message resp.message (some detected_service) (some detected_topic) ts with
      | Except.ok m2 => Except.ok (resp, m2)
      | Except.error e => Except.error e

/-- The POST /api/chat route: 400 when both message and image are falsy,
otherwise 200 on a returned response and 500 on an escaped exception.  The
result pairs the HTTP status with the conversations mapping after the
call. -/
def chat (m : ConvMap) (message : String) (image_data session_id : Option String)
    (default_session_id : String) (pick : List String → String) (ts : String) : Nat × ConvMap :=
  if !(pyTruthy (some message)) && !(pyTruthy image_data) then (400, m)
  else
    match process_message m message image_data session_id default_session_id pick ts with
    | Except.ok (_, m2) => (200, m2)
    | Except.error _ => (500, m)

/-- A concrete stand-in for random.choice, used in closed statements. -/
def pick_head (l : List String) : String := l.headD ""

/-- C2: for a fresh session and a practice request with no detectable
service, the random-choice arm is not taken — the outcome is independent of
the random pick — and no practice question or header message is produced:
the branch resolves the service to None (the 'general' default of
context.get is dead because get_context always supplies the key), the
question generator raises AttributeError on None.upper(), and the caught
fault then turns into UnboundLocalError on detected_topic at the final
store_context, so process_message raises instead of storing context. -/
theorem practice_fresh_session_no_random_choice :
    (∀ pick₁ pick₂ : List String → String,
      process_message empty_conversations "quiz" none none "d" pick₁ "t0"
        = process_message empty_conversations "quiz" none none "d" pick₂ "t0")
    ∧ process_message empty_conversations "quiz" none none "d" pick_head "t0"
        = Except.error (PyErr.unboundLocal "detected_topic") :=
  ⟨fun _ _ => rfl, rfl⟩

/-- C3: a fault raised inside message processing is not always converted
into a 200 apology turn: on the message "practice" against a fresh session
the practice branch raises, the top-level handler catches it, but the
store_context after the handler reads the never-assigned local
detected_topic, and the escaping UnboundLocalError makes the chat endpoint
answer 500 with the conversations mapping unchanged (no context stored). -/
theorem chat_practice_crash_returns_500 :
    chat empty_conversations "practice" none none "d" pick_head "t0"
      = (500, empty_conversations) := rfl

/-- A conversations mapping holding one session "sess1" with one prior
exchange and sticky current service "ec2". -/
def c10_state : ConvMap :=
  store_context empty_conversations "sess1" "ec2 kya hai" "bot reply" (some "ec2") none "t0"

/-- The user text recorded by the most recent history entry of a session,
after a process_message call (none when the call raised). -/
def lastStoredUser (r : Except PyErr (Response × ConvMap)) (session_id : String) : Option String :=
  match r with
  | Except.ok (_, m2) => (((m2 session_id).getD freshSession).history.getLast?).map HistoryEntry.user
  | Except.error _ => none

/-- C10 counterexample: the message "ek aur question" satisfies the
follow-up criteria (indicator "aur", non-empty history) and the session
has a sticky current service, yet the turn is handled by the practice
branch, which returns before the follow-up rewrite: the appended history
entry records the original message, not a text prefixed with
"Follow-up about ec2: ". -/
theorem follow_up_rewrite_counterexample :
    is_follow_up "ek aur question" (get_context c10_state "sess1") = true
    ∧ (get_context c10_state "sess1").current_service = some "ec2"
    ∧ lastStoredUser
        (process_message c10_state "ek aur question" none (some "sess1") "d" pick_head "t1")
        "sess1" = some "ek aur question" :=
  ⟨rfl, rfl, rfl⟩

theorem store_context_lastUser (m : ConvMap) (sid u b : String) (s t : Option String) (ts : String) :
    (((store_context m sid u b s t ts) sid).getD freshSession).history.getLast?.map HistoryEntry.user
      = some u := by
  unfold store_context
  rw [if_pos rfl]
  split <;> split <;> simp

theorem detect_service_ne_empty {msg k : String} (h : detect_service msg = some k) : k ≠ "" := by
  rcases hS : scoredServices (pyLower msg) with _ | ⟨x, xs⟩
  · simp only [detect_service, hS] at h
    exact Option.noConfusion h
  · simp only [detect_service, hS, Option.some.injEq] at h
    obtain ⟨S₁, S₂, e, _, _⟩ := pymaxAux_spec xs x
    have hr : pymaxAux x xs ∈ x :: xs := by
      rw [e]
      exact List.mem_append_right _ (List.mem_cons_self _ _)
    rw [← hS] at hr
    have hr2 : pymaxAux x xs ∈ List.filterMap (scoreEntry (pyLower msg)) service_keywords := by
      unfold scoredServices at hr
      exact hr
    obtain ⟨p, hp, hpe⟩ := List.mem_filterMap.mp hr2
    obtain ⟨hra, _⟩ := scoreEntry_eq_some hpe
    have hp1 : p.1 = k := by rw [← h, hra]
    rw [← hp1]
    simp only [service_keywords, List.mem_cons, List.not_mem_nil, or_false] at hp
    rcases hp with h7 | h7 | h7 | h7 | h7 | h7 | h7 <;>
      · rw [h7]
        simp

/-- C10 (amended): provided the turn is handled by the text-response path
(neither the greeting nor the practice branch triggers), whenever the
message satisfies the follow-up criteria and the session has a sticky
current service, the history entry appended for the turn records the
rewritten text "Follow-up about {service}: {message}" — the original
message as sent by the caller is not what gets persisted. -/
theorem follow_up_rewrite_in_text_path (m : ConvMap) (sid msg dflt ts svc : String)
    (pick : List String → String)
    (hsid : (sid == "") = false)
    (hg : greetingHit msg = false)
    (hp : practiceHit msg = false)
    (hf : is_follow_up msg (get_context m sid) = true)
    (hsvc : (get_context m sid).current_service = some svc)
    (hsvc2 : (svc == "") = false) :
    lastStoredUser (process_message m msg none (some sid) dflt pick ts) sid
      = some ("Follow-up about " ++ svc ++ ": " ++ msg) := by
  cases hds : detect_service msg with
  | none =>
    simp [process_message, pyTruthy, pyStr, pyOr, hsid, hg, hp, hf, hsvc, hsvc2, hds,
      final_store, lastStoredUser, store_context_lastUser]
  | some k =>
    have hk : (k == "") = false := by
      simpa using detect_service_ne_empty hds
    simp [process_message, pyTruthy, pyStr, pyOr, hsid, hg, hp, hf, hsvc, hsvc2, hds, hk,
      final_store, lastStoredUser, store_context_lastUser]

/-- Witness for the amended C10 at a concrete input: a follow-up message
with a sticky service "ec2" that reaches the text path gets stored with the
"Follow-up about ec2: " prefix. -/
theorem follow_up_rewrite_in_text_path_witness :
    lastStoredUser
      (process_message c10_state "iske baare mein aur batao" none (some "sess1") "d" pick_head "t1")
      "sess1" = some ("Follow-up about " ++ "ec2" ++ ": " ++ "iske baare mein aur batao") :=
  follow_up_rewrite_in_text_path c10_state "sess1" "iske baare mein aur batao" "d" "t1" "ec2"
    pick_head rfl rfl rfl rfl rfl rfl
